import Mathlib

/-!
# Verification of the Authenticated API Gateway Client

Shallow embedding of the HTTP client wrapper of the boardroom-booking mobile
application: the request interceptor (bearer-token and tenant-context
decoration), the response-error interceptor (one-shot 401
refresh-and-retry protocol), and the session store operations it drives.

Source of the embedding:
* the API client module (axios instance, module-level `selectedCampusId`,
  lazily installed auth-store getter `getAuthState`, optional
  `navigationResetToLogin` callback, request interceptor, response
  interceptor with the 401 handler);
* the zustand auth store (`setTokens`, `login`, `logout`, `setUser`,
  `setHydrated`).

Modelling conventions:
* TypeScript `string | null` becomes `Option String`; JavaScript truthiness
  of such a value (`if (accessToken)`, `if (selectedCampusId)`,
  `if (refreshToken)`) is `none` and `some ""` falsy, every other `some`
  truthy.
* The axios error object is `ApiError`: `status` is
  `error.response?.status` (`none` when there is no HTTP response, i.e. a
  network-level failure) and `config` is the request configuration the
  error carries (which the handler mutates in place in the source; here the
  propagated error is rebuilt with the updated configuration).
* The module-level mutable bindings of the client are gathered in
  `ClientState`; the externally observable callback invocations and network
  calls are gathered in a `Trace`.
* The transport (`send`) and the refresh exchange (`refresh`, the direct
  `axios.post` to `/auth/refresh` that bypasses the interceptors) are
  oracles: arbitrary functions quantified in each theorem.
-/

namespace ApiClient

/-- The zustand auth store state (`user`, `accessToken`, `refreshToken`,
`isAuthenticated`, `isHydrated`); the user object is abstracted to an
identifier string. -/
structure AuthState where
  user : Option String
  accessToken : Option String
  refreshToken : Option String
  isAuthenticated : Bool
  isHydrated : Bool
  deriving Repr, DecidableEq

/-- Store operation `setTokens(accessToken, refreshToken)`: overwrite the
credential pair, touch nothing else. -/
def AuthState.setTokens (s : AuthState) (accessToken refreshToken : String) : AuthState :=
  { s with accessToken := some accessToken, refreshToken := some refreshToken }

/-- Store operation `login(user, accessToken, refreshToken)`. -/
def AuthState.login (s : AuthState) (user accessToken refreshToken : String) : AuthState :=
  { s with
    user := some user
    accessToken := some accessToken
    refreshToken := some refreshToken
    isAuthenticated := true }

/-- Store operation `logout()`: clear user and both credentials. -/
def AuthState.logout (s : AuthState) : AuthState :=
  { s with
    user := none
    accessToken := none
    refreshToken := none
    isAuthenticated := false }

/-- Store operation `setUser(user)`. -/
def AuthState.setUser (s : AuthState) (user : String) : AuthState :=
  { s with user := some user }

/-- Store operation `setHydrated(hydrated)`. -/
def AuthState.setHydrated (s : AuthState) (hydrated : Bool) : AuthState :=
  { s with isHydrated := hydrated }

/-- The headers of a request configuration. The two headers the client
manages (`Authorization`, `X-Campus-Id`) are explicit; every other header
(e.g. `Content-Type`) is carried opaquely in `other`. -/
structure Headers where
  authorization : Option String
  xCampusId : Option String
  other : List (String × String)
  deriving Repr, DecidableEq

/-- A request configuration (`InternalAxiosRequestConfig` plus the `_retry`
one-shot flag the 401 handler stamps on it). Method, URL and body play no
role in the interceptors and are abstracted into `other` metadata. -/
structure Request where
  headers : Headers
  retryFlag : Bool
  deriving Repr, DecidableEq

/-- JavaScript truthiness of a `string | null` value: `null` and `""` are
falsy. -/
def truthy : Option String → Bool
  | none => false
  | some s => s ≠ ""

/-- The module-level mutable state of the API client:
`selectedCampusId`, the installed auth-store getter (`none` while
`setAuthStoreGetter` has never been called), and whether the
navigation-reset callback has been installed. -/
structure ClientState where
  selectedCampusId : Option String
  authState : Option AuthState
  navInstalled : Bool
  deriving Repr, DecidableEq

/-- Module setter `setSelectedCampusId(campusId)`. -/
def setSelectedCampusId (st : ClientState) (campusId : Option String) : ClientState :=
  { st with selectedCampusId := campusId }

/-- Module getter `getSelectedCampusId()`. -/
def getSelectedCampusId (st : ClientState) : Option String :=
  st.selectedCampusId

/-- Module setter `setAuthStoreGetter(getter)`: installs the auth store. -/
def setAuthStoreGetter (st : ClientState) (auth : AuthState) : ClientState :=
  { st with authState := some auth }

/-- Module setter `setNavigationResetToLogin(fn)`: installs the navigation-reset
callback. -/
def setNavigationResetToLogin (st : ClientState) : ClientState :=
  { st with navInstalled := true }

/-- The request interceptor: if the auth-store getter is installed and the
access token is truthy, set `Authorization: Bearer <token>`; if
`selectedCampusId` is truthy, set `X-Campus-Id`. No other mutation. -/
def requestInterceptor (st : ClientState) (req : Request) : Request :=
  let req1 :=
    match st.authState with
    | some auth =>
        match auth.accessToken with
        | some accessToken =>
            if accessToken = "" then req
            else { req with headers := { req.headers with
                     authorization := some ("Bearer " ++ accessToken) } }
        | none => req
    | none => req
  match st.selectedCampusId with
  | some campusId =>
      if campusId = "" then req1
      else { req1 with headers := { req1.headers with xCampusId := some campusId } }
  | none => req1

/-- An HTTP response (the interceptors pass successful responses through
untouched, so only an abstract payload is needed). -/
structure Response where
  status : Nat
  body : String
  deriving Repr, DecidableEq

/-- The axios error the response interceptor receives: `status` is
`error.response?.status` (`none` for a network-level failure without an
HTTP response) and `config` is the request configuration carried on the
error. -/
structure ApiError where
  status : Option Nat
  config : Request
  deriving Repr, DecidableEq

/-- Outcome of handing a request to the transport: a response, or a failure
with an optional HTTP status. -/
inductive SendOutcome where
  | ok (resp : Response)
  | fail (status : Option Nat)
  deriving Repr, DecidableEq

/-- The transport oracle: what the network does with a fully decorated
request. -/
abbrev SendFn := Request → SendOutcome

/-- A failure of the refresh exchange (`axios.post` to `/auth/refresh`):
either no response at all or a non-2xx HTTP status. The 401 handler's bare
`catch` treats both alike. -/
inductive RefreshFailure where
  | networkError
  | httpError (status : Nat)
  deriving Repr, DecidableEq

/-- A successful refresh exchange yields `response.data.data`:
a new access/refresh credential pair. -/
structure TokenPair where
  accessToken : String
  refreshToken : String
  deriving Repr, DecidableEq

/-- The refresh-exchange oracle: what `POST /auth/refresh` does with a
given refresh token. -/
abbrev RefreshFn := String → Except RefreshFailure TokenPair

/-- Externally observable events of one client run: the requests handed to
the transport (in order), the refresh tokens posted to `/auth/refresh`, the
pairs passed to the session mutator `setTokens`, and the number of
invocations of the `logout` and navigation-reset callbacks. -/
structure Trace where
  sentRequests : List Request
  refreshCalls : List String
  setTokensCalls : List TokenPair
  logoutCalls : Nat
  navResetCalls : Nat
  deriving Repr, DecidableEq

/-- The empty trace. -/
def Trace.empty : Trace := ⟨[], [], [], 0, 0⟩

/-- Sequential composition of traces. -/
def Trace.append (t1 t2 : Trace) : Trace :=
  ⟨t1.sentRequests ++ t2.sentRequests,
   t1.refreshCalls ++ t2.refreshCalls,
   t1.setTokensCalls ++ t2.setTokensCalls,
   t1.logoutCalls + t2.logoutCalls,
   t1.navResetCalls + t2.navResetCalls⟩

/-- Trace of a single transport call. -/
def sendTrace (sent : Request) : Trace := ⟨[sent], [], [], 0, 0⟩

/-- What the response-error interceptor decides to do with an error:
reject the promise with an error, or re-issue a request (the
`return api(originalRequest)` branch). Both carry the updated client state
and the events performed while deciding. -/
inductive ErrAction where
  | reject (st : ClientState) (tr : Trace) (e : ApiError)
  | retry (st : ClientState) (tr : Trace) (req : Request)
  deriving Repr, DecidableEq

/-- The terminal-session path of the 401 handler:
`getAuthState().logout(); navigationResetToLogin?.();` followed by
`return Promise.reject(error)`. `refreshAttempts` records the refresh
calls made before reaching this path. -/
def terminalAction (st : ClientState) (auth : AuthState) (refreshAttempts : List String)
    (e : ApiError) : ErrAction :=
  .reject { st with authState := some auth.logout }
    ⟨[], refreshAttempts, [], 1, if st.navInstalled then 1 else 0⟩ e

/-- The inner 401 branch of the response interceptor, entered when the
status is 401, the request is not flagged and the auth-store getter is
installed. Mirrors the source: stamp `_retry` on the request configuration
(which the carried error aliases), then branch on the truthiness of the
refresh token; on a truthy token run the refresh exchange, on success call
`setTokens`, rewrite the authorization header and re-issue, on failure (or
a falsy token) log out, reset navigation if installed, and reject with the
original error. -/
def handle401 (st : ClientState) (auth : AuthState) (refresh : RefreshFn)
    (e : ApiError) : ErrAction :=
  let originalRequest : Request := { e.config with retryFlag := true }
  let e' : ApiError := { e with config := originalRequest }
  match auth.refreshToken with
  | some refreshToken =>
      if refreshToken = "" then
        terminalAction st auth [] e'
      else
        match refresh refreshToken with
        | .ok pair =>
            .retry
              { st with authState := some (auth.setTokens pair.accessToken pair.refreshToken) }
              ⟨[], [refreshToken], [pair], 0, 0⟩
              { originalRequest with headers := { originalRequest.headers with
                  authorization := some ("Bearer " ++ pair.accessToken) } }
        | .error _ => terminalAction st auth [refreshToken] e'
  | none => terminalAction st auth [] e'

/-- The response-error interceptor: enter the 401 handler exactly when
`error.response?.status === 401 && !originalRequest._retry &&
getAuthState`; otherwise fall through to `return Promise.reject(error)`
with the error untouched. -/
def responseErrorInterceptor (st : ClientState) (refresh : RefreshFn)
    (e : ApiError) : ErrAction :=
  match st.authState with
  | some auth =>
      if e.status = some 401 ∧ e.config.retryFlag = false then
        handle401 st auth refresh e
      else .reject st Trace.empty e
  | none => .reject st Trace.empty e

/-- Result of issuing one request through the full client: the value the
caller's promise settles with, the client state afterwards, and the trace
of observable events. -/
structure RunResult where
  result : Except ApiError Response
  finalState : ClientState
  trace : Trace
  deriving Repr

/-- One request through the full pipeline, fuelled: decorate via the
request interceptor, hand to the transport, on success resolve, on failure
build the axios error (status plus the sent configuration) and run the
response-error interceptor; a `retry` action recursively re-enters the
pipeline (`return api(originalRequest)`), so the retried request passes
through both interceptors again. The fuel only bounds that recursion; the
retry flag makes depth 2 suffice (`apiCallAux_fuel_stable`), so the
fuel-exhausted base case is unreachable from `apiCall`. -/
def apiCallAux (send : SendFn) (refresh : RefreshFn) :
    Nat → ClientState → Request → RunResult
  | 0, st, req => ⟨.error ⟨none, req⟩, st, Trace.empty⟩
  | n + 1, st, req =>
    let sent := requestInterceptor st req
    match send sent with
    | .ok resp => ⟨.ok resp, st, sendTrace sent⟩
    | .fail status =>
        match responseErrorInterceptor st refresh ⟨status, sent⟩ with
        | .reject st' tr e => ⟨.error e, st', (sendTrace sent).append tr⟩
        | .retry st' tr req' =>
            let r := apiCallAux send refresh n st' req'
            ⟨r.result, r.finalState, ((sendTrace sent).append tr).append r.trace⟩

/-- One request through the full client (`api(request)`). -/
def apiCall (send : SendFn) (refresh : RefreshFn) (st : ClientState) (req : Request) :
    RunResult :=
  apiCallAux send refresh 2 st req

/-! ## Derived descriptions of the handler's observable outcomes

The following definitions name the states, requests and errors the 401
handler produces; the lemmas below prove that the interceptor actually
produces them. They are vocabulary for theorem statements, not part of the
embedding itself. -/

/-- A request configuration stamped with the one-shot retry flag
(`originalRequest._retry = true`). -/
def markRetried (req : Request) : Request :=
  { req with retryFlag := true }

/-- The original error after the handler stamped the retry flag on the
request configuration the error carries. -/
def markRetriedError (e : ApiError) : ApiError :=
  { e with config := markRetried e.config }

/-- Client state after the refresh-success path persisted a new credential
pair through the session mutator. -/
def refreshedState (st : ClientState) (auth : AuthState) (pair : TokenPair) : ClientState :=
  { st with authState := some (auth.setTokens pair.accessToken pair.refreshToken) }

/-- Client state after a terminal-session path invoked the logout
callback. -/
def loggedOutState (st : ClientState) (auth : AuthState) : ClientState :=
  { st with authState := some auth.logout }

/-- The request configuration the handler re-issues: the (flagged) original
with its authorization header rewritten to the fresh access credential. -/
def retriedRequest (original : Request) (newAccessToken : String) : Request :=
  { markRetried original with headers :=
      { original.headers with authorization := some ("Bearer " ++ newAccessToken) } }

/-- The outcome of a bare transport exchange, as the caller's promise sees
it: the response on success, the axios error (status plus sent
configuration) on failure. -/
def plainOutcome (send : SendFn) (sent : Request) : Except ApiError Response :=
  match send sent with
  | .ok resp => .ok resp
  | .fail status => .error ⟨status, sent⟩

/-! ## Basic lemmas about the interceptors -/

/-- The request interceptor never touches the one-shot retry flag. -/
theorem requestInterceptor_retryFlag (st : ClientState) (req : Request) :
    (requestInterceptor st req).retryFlag = req.retryFlag := by
  simp only [requestInterceptor]
  repeat' split <;> try rfl

/-- The request interceptor never touches headers other than
`Authorization` and `X-Campus-Id`. -/
theorem requestInterceptor_other (st : ClientState) (req : Request) :
    (requestInterceptor st req).headers.other = req.headers.other := by
  simp only [requestInterceptor]
  repeat' split <;> try rfl

/-- An error whose request configuration already carries the retry flag is
rejected as-is, with no observable event. -/
theorem responseErrorInterceptor_flagged (st : ClientState) (refresh : RefreshFn)
    (e : ApiError) (h : e.config.retryFlag = true) :
    responseErrorInterceptor st refresh e = .reject st Trace.empty e := by
  unfold responseErrorInterceptor
  rcases st.authState with _ | auth
  · rfl
  · simp [h]

/-- Every request the interceptor re-issues carries the retry flag. -/
theorem responseErrorInterceptor_retry_flag (st st' : ClientState) (refresh : RefreshFn)
    (e : ApiError) (tr : Trace) (req' : Request)
    (h : responseErrorInterceptor st refresh e = .retry st' tr req') :
    req'.retryFlag = true := by
  unfold responseErrorInterceptor handle401 terminalAction at h
  rcases hst : st.authState with _ | auth <;> simp only [hst] at h
  · cases h
  · by_cases hc : e.status = some 401 ∧ e.config.retryFlag = false
    · rw [if_pos hc] at h
      rcases hrt : auth.refreshToken with _ | rt <;> simp only [hrt] at h
      · cases h
      · by_cases hrt0 : rt = ""
        · rw [if_pos hrt0] at h; cases h
        · rw [if_neg hrt0] at h
          rcases hr : refresh rt with f | pair <;> simp only [hr] at h
          · cases h
          · cases h; rfl
    · rw [if_neg hc] at h; cases h

/-- Appending the empty trace is the identity. -/
theorem Trace.append_empty (t : Trace) : t.append Trace.empty = t := by
  simp [Trace.append, Trace.empty]

/-- Prepending the empty trace is the identity. -/
theorem Trace.empty_append (t : Trace) : Trace.empty.append t = t := by
  simp [Trace.append, Trace.empty]

/-- A run of the pipeline on a request that already carries the retry flag
is a single transport exchange: its outcome is returned as-is, the state is
untouched and no refresh, session mutation or callback happens. Holds for
any positive fuel. -/
theorem apiCallAux_flagged (send : SendFn) (refresh : RefreshFn) (n : Nat)
    (st : ClientState) (req : Request) (h : req.retryFlag = true) :
    apiCallAux send refresh (n + 1) st req =
      ⟨(match send (requestInterceptor st req) with
         | .ok resp => .ok resp
         | .fail status => .error ⟨status, requestInterceptor st req⟩),
       st, sendTrace (requestInterceptor st req)⟩ := by
  have hsent : (requestInterceptor st req).retryFlag = true := by
    rw [requestInterceptor_retryFlag, h]
  unfold apiCallAux
  rcases hs : send (requestInterceptor st req) with resp | status <;> simp only [hs]
  rw [responseErrorInterceptor_flagged st refresh ⟨status, requestInterceptor st req⟩ hsent]
  simp [Trace.append_empty]

/-- Any fuel of at least 2 computes the same run as `apiCall`: the
fuel-exhausted base case of `apiCallAux` is unreachable, because a re-issued
request carries the retry flag and is therefore never re-issued again. -/
theorem apiCallAux_fuel_stable (send : SendFn) (refresh : RefreshFn) (n : Nat)
    (st : ClientState) (req : Request) :
    apiCallAux send refresh (n + 2) st req = apiCall send refresh st req := by
  show apiCallAux send refresh (n + 1 + 1) st req = apiCallAux send refresh (1 + 1) st req
  unfold apiCallAux
  rcases hs : send (requestInterceptor st req) with resp | status <;> simp only [hs]
  rcases ha : responseErrorInterceptor st refresh ⟨status, requestInterceptor st req⟩ with
    ⟨st', tr, e⟩ | ⟨st', tr, req'⟩ <;> simp only [ha]
  have hflag := responseErrorInterceptor_retry_flag st st' refresh _ tr req' ha
  rw [apiCallAux_flagged send refresh n st' req' hflag,
    apiCallAux_flagged send refresh 0 st' req' hflag]

/-! ## Characterization of the 401 handler's branches -/

/-- No HTTP 401 status: the error interceptor passes the error through
untouched with no observable event. -/
theorem responseErrorInterceptor_non401 (st : ClientState) (refresh : RefreshFn)
    (e : ApiError) (h : e.status ≠ some 401) :
    responseErrorInterceptor st refresh e = .reject st Trace.empty e := by
  unfold responseErrorInterceptor
  rcases hauth : st.authState with _ | auth <;> simp only [hauth]
  rw [if_neg fun hc => h hc.1]

/-- Auth-store getter never installed: the error interceptor passes every
error through untouched with no observable event. -/
theorem responseErrorInterceptor_noauth (st : ClientState) (refresh : RefreshFn)
    (e : ApiError) (h : st.authState = none) :
    responseErrorInterceptor st refresh e = .reject st Trace.empty e := by
  unfold responseErrorInterceptor
  rw [h]

/-- Status 401, unflagged, getter installed, no refresh credential: log out, hit
the navigation reset if installed, reject the original (now flagged)
error; no refresh exchange. -/
theorem responseErrorInterceptor_noToken (st : ClientState) (auth : AuthState)
    (refresh : RefreshFn) (e : ApiError)
    (hauth : st.authState = some auth) (h401 : e.status = some 401)
    (hflag : e.config.retryFlag = false) (hrt : auth.refreshToken = none) :
    responseErrorInterceptor st refresh e =
      .reject (loggedOutState st auth)
        ⟨[], [], [], 1, if st.navInstalled then 1 else 0⟩ (markRetriedError e) := by
  unfold responseErrorInterceptor handle401 terminalAction
  simp only [hauth]
  rw [if_pos (And.intro h401 hflag)]
  simp only [hrt]
  rfl

/-- Status 401, unflagged, getter installed, refresh credential present but equal
to the empty string (falsy in the source's truthiness test): treated like a
missing credential — log out, reject the original error, no refresh
exchange. -/
theorem responseErrorInterceptor_emptyToken (st : ClientState) (auth : AuthState)
    (refresh : RefreshFn) (e : ApiError)
    (hauth : st.authState = some auth) (h401 : e.status = some 401)
    (hflag : e.config.retryFlag = false) (hrt : auth.refreshToken = some "") :
    responseErrorInterceptor st refresh e =
      .reject (loggedOutState st auth)
        ⟨[], [], [], 1, if st.navInstalled then 1 else 0⟩ (markRetriedError e) := by
  unfold responseErrorInterceptor handle401 terminalAction
  simp only [hauth]
  rw [if_pos (And.intro h401 hflag)]
  simp only [hrt, if_true]
  rfl

/-- Status 401, unflagged, getter installed, truthy refresh credential, refresh
exchange fails (for any reason): one refresh attempt, log out, navigation
reset if installed, reject the original (now flagged) error. -/
theorem responseErrorInterceptor_refreshFail (st : ClientState) (auth : AuthState)
    (refresh : RefreshFn) (e : ApiError) (rt : String) (f : RefreshFailure)
    (hauth : st.authState = some auth) (h401 : e.status = some 401)
    (hflag : e.config.retryFlag = false) (hrt : auth.refreshToken = some rt)
    (hrtne : rt ≠ "") (hrefresh : refresh rt = .error f) :
    responseErrorInterceptor st refresh e =
      .reject (loggedOutState st auth)
        ⟨[], [rt], [], 1, if st.navInstalled then 1 else 0⟩ (markRetriedError e) := by
  unfold responseErrorInterceptor handle401 terminalAction
  simp only [hauth]
  rw [if_pos (And.intro h401 hflag)]
  simp only [hrt, if_neg hrtne, hrefresh]
  rfl

/-- Status 401, unflagged, getter installed, truthy refresh credential, refresh
exchange succeeds: persist the pair through the session mutator, re-issue
the original request with the fresh bearer header; no logout, no
navigation reset. -/
theorem responseErrorInterceptor_refreshOk (st : ClientState) (auth : AuthState)
    (refresh : RefreshFn) (e : ApiError) (rt : String) (pair : TokenPair)
    (hauth : st.authState = some auth) (h401 : e.status = some 401)
    (hflag : e.config.retryFlag = false) (hrt : auth.refreshToken = some rt)
    (hrtne : rt ≠ "") (hrefresh : refresh rt = .ok pair) :
    responseErrorInterceptor st refresh e =
      .retry (refreshedState st auth pair) ⟨[], [rt], [pair], 0, 0⟩
        (retriedRequest e.config pair.accessToken) := by
  unfold responseErrorInterceptor handle401
  simp only [hauth]
  rw [if_pos (And.intro h401 hflag)]
  simp only [hrt, if_neg hrtne, hrefresh]
  rfl

/-! ## Pipeline-level run lemmas -/

/-- A failed exchange whose error the interceptor rejects yields that
error, the interceptor's state, and the send event followed by the
interceptor's events. -/
theorem apiCall_fail (send : SendFn) (refresh : RefreshFn) (st st' : ClientState)
    (req : Request) (status : Option Nat) (tr : Trace) (e : ApiError)
    (hsend : send (requestInterceptor st req) = .fail status)
    (hstep : responseErrorInterceptor st refresh ⟨status, requestInterceptor st req⟩ =
      .reject st' tr e) :
    apiCall send refresh st req =
      ⟨.error e, st', (sendTrace (requestInterceptor st req)).append tr⟩ := by
  show apiCallAux send refresh (1 + 1) st req = _
  unfold apiCallAux
  simp only [hsend, hstep]

/-- A failed exchange whose error the interceptor answers with a re-issue
yields the retried request's own transport outcome, the refreshed state,
and the trace of both exchanges. -/
theorem apiCall_retry (send : SendFn) (refresh : RefreshFn) (st st' : ClientState)
    (req req' : Request) (status : Option Nat) (tr : Trace)
    (hsend : send (requestInterceptor st req) = .fail status)
    (hstep : responseErrorInterceptor st refresh ⟨status, requestInterceptor st req⟩ =
      .retry st' tr req') :
    apiCall send refresh st req =
      ⟨plainOutcome send (requestInterceptor st' req'), st',
       ((sendTrace (requestInterceptor st req)).append tr).append
         (sendTrace (requestInterceptor st' req'))⟩ := by
  show apiCallAux send refresh (1 + 1) st req = _
  unfold apiCallAux
  simp only [hsend, hstep]
  rw [apiCallAux_flagged send refresh 0 st' req'
    (responseErrorInterceptor_retry_flag st st' refresh _ tr req' hstep)]
  rfl

/-- Header-level characterization of the request interceptor: the
authorization header is overwritten with a bearer value exactly when the
getter is installed and the access token is truthy; otherwise it is left
alone. -/
theorem requestInterceptor_authorization (st : ClientState) (req : Request) :
    (requestInterceptor st req).headers.authorization =
      match st.authState with
      | some auth =>
          match auth.accessToken with
          | some accessToken =>
              if accessToken = "" then req.headers.authorization
              else some ("Bearer " ++ accessToken)
          | none => req.headers.authorization
      | none => req.headers.authorization := by
  unfold requestInterceptor
  rcases st.authState with _ | auth <;> rcases st.selectedCampusId with _ | campusId <;>
    try rcases auth.accessToken with _ | tok
  all_goals repeat' split
  all_goals rfl

/-- Header-level characterization of the request interceptor: the
tenant-context header is overwritten exactly when `selectedCampusId` is
truthy; otherwise it is left alone. -/
theorem requestInterceptor_xCampusId (st : ClientState) (req : Request) :
    (requestInterceptor st req).headers.xCampusId =
      match st.selectedCampusId with
      | some campusId =>
          if campusId = "" then req.headers.xCampusId else some campusId
      | none => req.headers.xCampusId := by
  unfold requestInterceptor
  rcases st.authState with _ | auth <;> rcases st.selectedCampusId with _ | campusId <;>
    try rcases auth.accessToken with _ | tok
  all_goals repeat' split
  all_goals rfl

/-- Exhaustive characterization of the response-error interceptor: every
error is (a) passed through untouched, or (b) answered by at most one
refresh attempt, exactly one logout, a navigation reset if installed, and
rejection of the original flagged error, or (c) answered by one successful
refresh exchange, one session mutation and a re-issue of the flagged
original request with the fresh bearer header. -/
theorem responseErrorInterceptor_cases (st : ClientState) (refresh : RefreshFn)
    (e : ApiError) :
    responseErrorInterceptor st refresh e = .reject st Trace.empty e ∨
    (∃ auth rts, st.authState = some auth ∧ rts.length ≤ 1 ∧
      responseErrorInterceptor st refresh e =
        .reject (loggedOutState st auth)
          ⟨[], rts, [], 1, if st.navInstalled then 1 else 0⟩ (markRetriedError e)) ∨
    (∃ auth rt pair, st.authState = some auth ∧ refresh rt = .ok pair ∧
      responseErrorInterceptor st refresh e =
        .retry (refreshedState st auth pair) ⟨[], [rt], [pair], 0, 0⟩
          (retriedRequest e.config pair.accessToken)) := by
  rcases hauth : st.authState with _ | auth
  · exact Or.inl (responseErrorInterceptor_noauth st refresh e hauth)
  · by_cases h401 : e.status = some 401
    · by_cases hflag : e.config.retryFlag = false
      · rcases hrt : auth.refreshToken with _ | rt
        · exact Or.inr (Or.inl ⟨auth, [], rfl, by simp,
            responseErrorInterceptor_noToken st auth refresh e hauth h401 hflag hrt⟩)
        · by_cases hrte : rt = ""
          · subst hrte
            exact Or.inr (Or.inl ⟨auth, [], rfl, by simp,
              responseErrorInterceptor_emptyToken st auth refresh e hauth h401 hflag hrt⟩)
          · rcases hr : refresh rt with f | pair
            · exact Or.inr (Or.inl ⟨auth, [rt], rfl, by simp,
                responseErrorInterceptor_refreshFail st auth refresh e rt f hauth h401 hflag hrt hrte hr⟩)
            · exact Or.inr (Or.inr ⟨auth, rt, pair, rfl, hr,
                responseErrorInterceptor_refreshOk st auth refresh e rt pair hauth h401 hflag hrt hrte hr⟩)
      · refine Or.inl ?_
        unfold responseErrorInterceptor
        simp only [hauth]
        rw [if_neg fun hc => hflag hc.2]
    · exact Or.inl (responseErrorInterceptor_non401 st refresh e h401)

/-! ## Claims -/

/-- Claim C5, counterexample: The claim as stated fails for the empty-string
access credential: with `accessToken = some ""` present in the session
state, the source's truthiness test `if (accessToken)` skips the header, so
the decorated request does not carry `Authorization: Bearer ` (it keeps its
original, absent, authorization header). -/
theorem C5_counterexample :
    ¬ ((requestInterceptor ⟨none, some ⟨none, some "", none, false, false⟩, false⟩
          ⟨⟨none, none, []⟩, false⟩).headers.authorization = some ("Bearer " ++ "")) := by
  decide

/-- Claim C5, amended: For every outbound request decorated while a
*nonempty* access credential is present in the session state, the decorated
request carries an `Authorization` header exactly equal to the string
`"Bearer "` followed by that access credential. -/
theorem C5_bearer_header (st : ClientState) (auth : AuthState) (accessToken : String)
    (req : Request) (hauth : st.authState = some auth)
    (htok : auth.accessToken = some accessToken) (hne : accessToken ≠ "") :
    (requestInterceptor st req).headers.authorization =
      some ("Bearer " ++ accessToken) := by
  rw [requestInterceptor_authorization]
  simp [hauth, htok, hne]

/-- Witness for C5 at a concrete state, token and request. -/
theorem C5_witness :
    (requestInterceptor ⟨none, some ⟨none, some "tokenA", none, true, false⟩, false⟩
        ⟨⟨none, none, []⟩, false⟩).headers.authorization =
      some ("Bearer " ++ "tokenA") :=
  C5_bearer_header _ _ "tokenA" _ rfl rfl (by decide)

/-- Claim C6, counterexample: The claim as stated fails for the empty-string
tenant identifier: after `setSelectedCampusId("")` the identifier is set,
yet the source's truthiness test `if (selectedCampusId)` skips the header,
so the decorated request does not carry `X-Campus-Id` equal to it. -/
theorem C6_counterexample :
    ¬ ((requestInterceptor ⟨some "", none, false⟩
          ⟨⟨none, none, []⟩, false⟩).headers.xCampusId = some "") := by
  decide

/-- Claim C6, amended: (a) Every request decorated while a *nonempty*
tenant-context identifier is set carries `X-Campus-Id` equal to that
identifier; (b) while the identifier is unset (`null`), decoration leaves
the `X-Campus-Id` header of the request untouched — in particular it is
absent for every request that did not already carry one; (c) the header is
reattached on the retried request: in a full 401-refresh-retry run with a
nonempty identifier set, both wire requests carry it. -/
theorem C6_campus_header :
    (∀ (st : ClientState) (req : Request) (campusId : String),
      st.selectedCampusId = some campusId → campusId ≠ "" →
      (requestInterceptor st req).headers.xCampusId = some campusId) ∧
    (∀ (st : ClientState) (req : Request),
      st.selectedCampusId = none →
      (requestInterceptor st req).headers.xCampusId = req.headers.xCampusId) ∧
    (∀ (send : SendFn) (refresh : RefreshFn) (st : ClientState) (auth : AuthState)
       (req : Request) (rt campusId : String) (pair : TokenPair),
      st.authState = some auth → st.selectedCampusId = some campusId → campusId ≠ "" →
      auth.refreshToken = some rt → rt ≠ "" → req.retryFlag = false →
      send (requestInterceptor st req) = .fail (some 401) → refresh rt = .ok pair →
      (apiCall send refresh st req).trace.sentRequests.map
          (fun r => r.headers.xCampusId) = [some campusId, some campusId]) := by
  refine ⟨?_, ?_, ?_⟩
  · intro st req campusId hcid hne
    rw [requestInterceptor_xCampusId]
    simp [hcid, hne]
  · intro st req hcid
    rw [requestInterceptor_xCampusId]
    simp [hcid]
  · intro send refresh st auth req rt campusId pair hauth hcid hne hrt hrte hflag hsend hok
    have hsentflag : (requestInterceptor st req).retryFlag = false := by
      rw [requestInterceptor_retryFlag]; exact hflag
    have hstep := responseErrorInterceptor_refreshOk st auth refresh
      ⟨some 401, requestInterceptor st req⟩ rt pair hauth rfl hsentflag hrt hrte hok
    rw [apiCall_retry send refresh st (refreshedState st auth pair) req
      (retriedRequest (requestInterceptor st req) pair.accessToken) (some 401)
      ⟨[], [rt], [pair], 0, 0⟩ hsend hstep]
    have h1 : (requestInterceptor st req).headers.xCampusId = some campusId := by
      rw [requestInterceptor_xCampusId]; simp [hcid, hne]
    have h2 : (requestInterceptor (refreshedState st auth pair)
        (retriedRequest (requestInterceptor st req) pair.accessToken)).headers.xCampusId =
        some campusId := by
      rw [requestInterceptor_xCampusId]
      simp [refreshedState, hcid, hne]
    simp [sendTrace, Trace.append, h1, h2]

/-- Witness for C6: part (a) applied at a concrete state and request. -/
theorem C6_witness :
    (requestInterceptor ⟨some "campus7", none, false⟩
        ⟨⟨none, none, []⟩, false⟩).headers.xCampusId = some "campus7" :=
  C6_campus_header.1 ⟨some "campus7", none, false⟩ ⟨⟨none, none, []⟩, false⟩
    "campus7" rfl (by decide)

/-- Claim C7: Request decoration is idempotent and free of side effects
outside the two managed headers: applying the request interceptor twice
under an unchanged client state yields exactly the request obtained by
applying it once (no duplicate headers, no accumulated values), and a
single application never touches the opaque remaining headers or the retry
flag. (In the embedding the interceptor is a pure function of the state and
the request, so it mutates no state at all.) -/
theorem C7_decoration_idempotent :
    (∀ (st : ClientState) (req : Request),
      requestInterceptor st (requestInterceptor st req) = requestInterceptor st req) ∧
    (∀ (st : ClientState) (req : Request),
      (requestInterceptor st req).headers.other = req.headers.other ∧
      (requestInterceptor st req).retryFlag = req.retryFlag) := by
  constructor
  · intro st req
    unfold requestInterceptor
    rcases st.authState with _ | auth <;> rcases st.selectedCampusId with _ | campusId <;>
      try rcases auth.accessToken with _ | tok
    all_goals repeat' split
    all_goals simp_all
  · intro st req
    exact ⟨requestInterceptor_other st req, requestInterceptor_retryFlag st req⟩

/-- Claim C1: A request not yet flagged as retried fails with HTTP 401, a
truthy refresh credential is present, and the refresh exchange succeeds
with the pair `(A2, R2)`: then the session mutator is called exactly once
with that pair and the session state afterwards holds
`accessToken = A2, refreshToken = R2`; the original request is re-issued
exactly once (two wire requests in total) and the retried wire request
carries `Authorization: Bearer A2`; the retried request's own transport
outcome — success or failure — is what the caller receives; and neither the
logout callback nor the navigation-reset callback is invoked. -/
theorem C1_refresh_success_retry (send : SendFn) (refresh : RefreshFn)
    (st st2 : ClientState) (auth : AuthState) (req sent sent2 : Request)
    (rt : String) (pair : TokenPair)
    (hauth : st.authState = some auth)
    (hrt : auth.refreshToken = some rt) (hrte : rt ≠ "")
    (hflag : req.retryFlag = false)
    (hsent : sent = requestInterceptor st req)
    (hsend : send sent = .fail (some 401))
    (hrefresh : refresh rt = .ok pair)
    (hst2 : st2 = refreshedState st auth pair)
    (hsent2 : sent2 = requestInterceptor st2 (retriedRequest sent pair.accessToken)) :
    apiCall send refresh st req =
      ⟨plainOutcome send sent2, st2, ⟨[sent, sent2], [rt], [pair], 0, 0⟩⟩ ∧
    st2.authState = some { auth with
      accessToken := some pair.accessToken, refreshToken := some pair.refreshToken } ∧
    sent2.headers.authorization = some ("Bearer " ++ pair.accessToken) := by
  subst hsent hst2 hsent2
  have hsentflag : (requestInterceptor st req).retryFlag = false := by
    rw [requestInterceptor_retryFlag]; exact hflag
  have hstep := responseErrorInterceptor_refreshOk st auth refresh
    ⟨some 401, requestInterceptor st req⟩ rt pair hauth rfl hsentflag hrt hrte hrefresh
  refine ⟨?_, rfl, ?_⟩
  · rw [apiCall_retry send refresh st (refreshedState st auth pair) req
      (retriedRequest (requestInterceptor st req) pair.accessToken) (some 401)
      ⟨[], [rt], [pair], 0, 0⟩ hsend hstep]
    rfl
  · rw [requestInterceptor_authorization]
    by_cases hA : pair.accessToken = ""
    · simp [refreshedState, AuthState.setTokens, hA, retriedRequest, markRetried]
    · simp [refreshedState, AuthState.setTokens, hA]

/-- Witness for C1: the spec's §8 scenario — session `A1/R1`, a protected
call fails 401, refresh returns `A2/R2`; the run re-issues once with
`Bearer A2` and ends with session `A2/R2`. -/
theorem C1_witness :
    apiCall
        (fun r => if r.headers.authorization = some "Bearer A2"
          then .ok ⟨200, "ok"⟩ else .fail (some 401))
        (fun rt => if rt = "R1" then .ok ⟨"A2", "R2"⟩ else .error .networkError)
        ⟨some "campus7", some ⟨some "u", some "A1", some "R1", true, true⟩, true⟩
        ⟨⟨none, none, []⟩, false⟩ =
      ⟨plainOutcome
          (fun r => if r.headers.authorization = some "Bearer A2"
            then .ok ⟨200, "ok"⟩ else .fail (some 401))
          (requestInterceptor
            (refreshedState ⟨some "campus7", some ⟨some "u", some "A1", some "R1", true, true⟩, true⟩
              ⟨some "u", some "A1", some "R1", true, true⟩ ⟨"A2", "R2"⟩)
            (retriedRequest
              (requestInterceptor
                ⟨some "campus7", some ⟨some "u", some "A1", some "R1", true, true⟩, true⟩
                ⟨⟨none, none, []⟩, false⟩) "A2")),
        refreshedState ⟨some "campus7", some ⟨some "u", some "A1", some "R1", true, true⟩, true⟩
          ⟨some "u", some "A1", some "R1", true, true⟩ ⟨"A2", "R2"⟩,
        ⟨[requestInterceptor
            ⟨some "campus7", some ⟨some "u", some "A1", some "R1", true, true⟩, true⟩
            ⟨⟨none, none, []⟩, false⟩,
          requestInterceptor
            (refreshedState ⟨some "campus7", some ⟨some "u", some "A1", some "R1", true, true⟩, true⟩
              ⟨some "u", some "A1", some "R1", true, true⟩ ⟨"A2", "R2"⟩)
            (retriedRequest
              (requestInterceptor
                ⟨some "campus7", some ⟨some "u", some "A1", some "R1", true, true⟩, true⟩
                ⟨⟨none, none, []⟩, false⟩) "A2")],
         ["R1"], [⟨"A2", "R2"⟩], 0, 0⟩⟩ :=
  (C1_refresh_success_retry _ _ _ _ _ _ _ _ "R1" ⟨"A2", "R2"⟩ rfl rfl (by decide)
    rfl rfl rfl rfl rfl rfl).1

/-- Claim C2: A request not yet flagged as retried fails with HTTP 401, a
truthy refresh credential is present, but the refresh exchange fails (any
`RefreshFailure`, network-level or HTTP): the logout and navigation-reset
callbacks are each invoked exactly once, exactly one refresh attempt is
made, nothing is re-issued, and the error the caller receives is the
original 401 (its configuration now carrying the retry flag) — not the
refresh error. The whole run is one fixed value independent of the kind of
refresh failure, so a network-level refresh failure is handled identically
to an explicit rejection. -/
theorem C2_refresh_failure_logout (send : SendFn) (refresh : RefreshFn)
    (st : ClientState) (auth : AuthState) (req sent : Request)
    (rt : String) (f : RefreshFailure)
    (hauth : st.authState = some auth)
    (hnav : st.navInstalled = true)
    (hrt : auth.refreshToken = some rt) (hrte : rt ≠ "")
    (hflag : req.retryFlag = false)
    (hsent : sent = requestInterceptor st req)
    (hsend : send sent = .fail (some 401))
    (hrefresh : refresh rt = .error f) :
    apiCall send refresh st req =
      ⟨.error ⟨some 401, markRetried sent⟩, loggedOutState st auth,
       ⟨[sent], [rt], [], 1, 1⟩⟩ ∧
    (∀ (refresh2 : RefreshFn) (f2 : RefreshFailure), refresh2 rt = .error f2 →
      apiCall send refresh2 st req = apiCall send refresh st req) := by
  subst hsent
  have hsentflag : (requestInterceptor st req).retryFlag = false := by
    rw [requestInterceptor_retryFlag]; exact hflag
  have main : ∀ (g : RefreshFn) (f2 : RefreshFailure), g rt = .error f2 →
      apiCall send g st req =
        ⟨.error ⟨some 401, markRetried (requestInterceptor st req)⟩, loggedOutState st auth,
         ⟨[requestInterceptor st req], [rt], [], 1, 1⟩⟩ := by
    intro g f2 hg
    have hstep := responseErrorInterceptor_refreshFail st auth g
      ⟨some 401, requestInterceptor st req⟩ rt f2 hauth rfl hsentflag hrt hrte hg
    rw [apiCall_fail send g st (loggedOutState st auth) req (some 401)
      ⟨[], [rt], [], 1, if st.navInstalled then 1 else 0⟩
      (markRetriedError ⟨some 401, requestInterceptor st req⟩) hsend hstep]
    simp [sendTrace, Trace.append, hnav, markRetriedError]
  refine ⟨main refresh f hrefresh, ?_⟩
  intro refresh2 f2 h2
  rw [main refresh2 f2 h2, main refresh f hrefresh]

/-- Witness for C2 at a concrete state with a network-level refresh
failure. -/
theorem C2_witness :
    apiCall (fun _ => .fail (some 401)) (fun _ => .error .networkError)
        ⟨none, some ⟨some "u", some "A1", some "R1", true, true⟩, true⟩
        ⟨⟨none, none, []⟩, false⟩ =
      ⟨.error ⟨some 401,
          markRetried (requestInterceptor
            ⟨none, some ⟨some "u", some "A1", some "R1", true, true⟩, true⟩
            ⟨⟨none, none, []⟩, false⟩)⟩,
        loggedOutState ⟨none, some ⟨some "u", some "A1", some "R1", true, true⟩, true⟩
          ⟨some "u", some "A1", some "R1", true, true⟩,
        ⟨[requestInterceptor ⟨none, some ⟨some "u", some "A1", some "R1", true, true⟩, true⟩
            ⟨⟨none, none, []⟩, false⟩], ["R1"], [], 1, 1⟩⟩ :=
  (C2_refresh_failure_logout _ _ _ _ _ _ "R1" .networkError rfl rfl rfl (by decide)
    rfl rfl rfl rfl).1

/-- Claim C3: A request not yet flagged as retried fails with HTTP 401 while
no refresh credential is present in the session state: the logout and
navigation-reset callbacks are each invoked exactly once, no refresh
exchange is issued (`refreshCalls = []`), nothing is re-issued, and the
original 401 error (its configuration now carrying the retry flag) is
propagated to the caller. -/
theorem C3_no_refresh_credential (send : SendFn) (refresh : RefreshFn)
    (st : ClientState) (auth : AuthState) (req sent : Request)
    (hauth : st.authState = some auth)
    (hnav : st.navInstalled = true)
    (hrt : auth.refreshToken = none)
    (hflag : req.retryFlag = false)
    (hsent : sent = requestInterceptor st req)
    (hsend : send sent = .fail (some 401)) :
    apiCall send refresh st req =
      ⟨.error ⟨some 401, markRetried sent⟩, loggedOutState st auth,
       ⟨[sent], [], [], 1, 1⟩⟩ := by
  subst hsent
  have hsentflag : (requestInterceptor st req).retryFlag = false := by
    rw [requestInterceptor_retryFlag]; exact hflag
  have hstep := responseErrorInterceptor_noToken st auth refresh
    ⟨some 401, requestInterceptor st req⟩ hauth rfl hsentflag hrt
  rw [apiCall_fail send refresh st (loggedOutState st auth) req (some 401)
    ⟨[], [], [], 1, if st.navInstalled then 1 else 0⟩
    (markRetriedError ⟨some 401, requestInterceptor st req⟩) hsend hstep]
  simp [sendTrace, Trace.append, hnav, markRetriedError]

/-- Witness for C3 at a concrete state with no refresh credential. -/
theorem C3_witness :
    apiCall (fun _ => .fail (some 401)) (fun _ => .error .networkError)
        ⟨none, some ⟨some "u", some "A1", none, true, true⟩, true⟩
        ⟨⟨none, none, []⟩, false⟩ =
      ⟨.error ⟨some 401,
          markRetried (requestInterceptor
            ⟨none, some ⟨some "u", some "A1", none, true, true⟩, true⟩
            ⟨⟨none, none, []⟩, false⟩)⟩,
        loggedOutState ⟨none, some ⟨some "u", some "A1", none, true, true⟩, true⟩
          ⟨some "u", some "A1", none, true, true⟩,
        ⟨[requestInterceptor ⟨none, some ⟨some "u", some "A1", none, true, true⟩, true⟩
            ⟨⟨none, none, []⟩, false⟩], [], [], 1, 1⟩⟩ :=
  C3_no_refresh_credential _ _ _ _ _ _ rfl rfl rfl rfl rfl rfl

/-- Claim C4: (a) A request already carrying the one-shot retry flag that
fails with HTTP 401 is propagated immediately: no refresh exchange, no
callbacks, no re-issue, state untouched. (b) In every run whatsoever — any
state, any transport and refresh behaviour — at most one refresh exchange
is made and at most two wire requests are sent, i.e. at most one
refresh-and-retry ever occurs, regardless of the cause of the second
failure. -/
theorem C4_at_most_one_retry :
    (∀ (send : SendFn) (refresh : RefreshFn) (st : ClientState) (req sent : Request),
      req.retryFlag = true → sent = requestInterceptor st req →
      send sent = .fail (some 401) →
      apiCall send refresh st req =
        ⟨.error ⟨some 401, sent⟩, st, ⟨[sent], [], [], 0, 0⟩⟩) ∧
    (∀ (send : SendFn) (refresh : RefreshFn) (st : ClientState) (req : Request),
      (apiCall send refresh st req).trace.refreshCalls.length ≤ 1 ∧
      (apiCall send refresh st req).trace.sentRequests.length ≤ 2) := by
  constructor
  · intro send refresh st req sent hflag hsent hsend
    subst hsent
    show apiCallAux send refresh (1 + 1) st req = _
    rw [apiCallAux_flagged send refresh 1 st req hflag]
    simp only [hsend]
    rfl
  · intro send refresh st req
    rcases hs : send (requestInterceptor st req) with resp | status
    · have hrun : apiCall send refresh st req =
          ⟨.ok resp, st, sendTrace (requestInterceptor st req)⟩ := by
        show apiCallAux send refresh (1 + 1) st req = _
        unfold apiCallAux
        simp only [hs]
      rw [hrun]
      exact ⟨by simp [sendTrace], by simp [sendTrace]⟩
    · rcases responseErrorInterceptor_cases st refresh ⟨status, requestInterceptor st req⟩ with
        h | ⟨auth, rts, hauth, hlen, h⟩ | ⟨auth, rt, pair, hauth, hok, h⟩
      · rw [apiCall_fail send refresh st st req status Trace.empty _ hs h]
        exact ⟨by simp [sendTrace, Trace.append, Trace.empty],
               by simp [sendTrace, Trace.append, Trace.empty]⟩
      · rw [apiCall_fail send refresh st (loggedOutState st auth) req status _ _ hs h]
        constructor
        · simpa [sendTrace, Trace.append] using hlen
        · simp [sendTrace, Trace.append]
      · rw [apiCall_retry send refresh st (refreshedState st auth pair) req
          (retriedRequest (⟨status, requestInterceptor st req⟩ : ApiError).config
            pair.accessToken) status ⟨[], [rt], [pair], 0, 0⟩ hs h]
        exact ⟨by simp [sendTrace, Trace.append], by simp [sendTrace, Trace.append]⟩

/-- Witness for C4: part (a) applied at a concrete already-flagged
request. -/
theorem C4_witness :
    apiCall (fun _ => .fail (some 401)) (fun _ => .error .networkError)
        ⟨none, some ⟨some "u", some "A1", some "R1", true, true⟩, true⟩
        ⟨⟨some "Bearer A1", none, []⟩, true⟩ =
      ⟨.error ⟨some 401,
          requestInterceptor ⟨none, some ⟨some "u", some "A1", some "R1", true, true⟩, true⟩
            ⟨⟨some "Bearer A1", none, []⟩, true⟩⟩,
        ⟨none, some ⟨some "u", some "A1", some "R1", true, true⟩, true⟩,
        ⟨[requestInterceptor ⟨none, some ⟨some "u", some "A1", some "R1", true, true⟩, true⟩
            ⟨⟨some "Bearer A1", none, []⟩, true⟩], [], [], 0, 0⟩⟩ :=
  C4_at_most_one_retry.1 _ _ _ _ _ rfl rfl rfl

/-- Claim C8: (a) Every response failure with a non-401 status — including
network failures with no status at all — is propagated to the caller
unmodified: no refresh exchange, no logout, no navigation reset, state
untouched. (b) In every run whatsoever, the client never touches the
tenant identifier or the navigation binding, and the session state either
stays exactly as it was, or is rewritten by the session mutator on the
refresh-success path (recorded as the single `setTokens` call of the run),
or is cleared by the single `logout` call of the run — so within the
client the refresh-success path and logout are the only writers of the
session credential pair (login lives in the store, outside the client). -/
theorem C8_non401_passthrough_and_writers :
    (∀ (send : SendFn) (refresh : RefreshFn) (st : ClientState) (req sent : Request)
       (status : Option Nat),
      sent = requestInterceptor st req → send sent = .fail status → status ≠ some 401 →
      apiCall send refresh st req =
        ⟨.error ⟨status, sent⟩, st, ⟨[sent], [], [], 0, 0⟩⟩) ∧
    (∀ (send : SendFn) (refresh : RefreshFn) (st : ClientState) (req : Request),
      (apiCall send refresh st req).finalState.selectedCampusId = st.selectedCampusId ∧
      (apiCall send refresh st req).finalState.navInstalled = st.navInstalled ∧
      ((apiCall send refresh st req).finalState.authState = st.authState ∨
       (∃ auth pair, st.authState = some auth ∧
         (apiCall send refresh st req).trace.setTokensCalls = [pair] ∧
         (apiCall send refresh st req).finalState.authState =
           some (auth.setTokens pair.accessToken pair.refreshToken)) ∨
       (∃ auth, st.authState = some auth ∧
         (apiCall send refresh st req).trace.logoutCalls = 1 ∧
         (apiCall send refresh st req).finalState.authState = some auth.logout))) := by
  constructor
  · intro send refresh st req sent status hsent hsend hstatus
    subst hsent
    have hstep := responseErrorInterceptor_non401 st refresh
      ⟨status, requestInterceptor st req⟩ hstatus
    rw [apiCall_fail send refresh st st req status Trace.empty
      ⟨status, requestInterceptor st req⟩ hsend hstep]
    rw [Trace.append_empty]
    rfl
  · intro send refresh st req
    rcases hs : send (requestInterceptor st req) with resp | status
    · have hrun : apiCall send refresh st req =
          ⟨.ok resp, st, sendTrace (requestInterceptor st req)⟩ := by
        show apiCallAux send refresh (1 + 1) st req = _
        unfold apiCallAux
        simp only [hs]
      rw [hrun]
      exact ⟨rfl, rfl, Or.inl rfl⟩
    · rcases responseErrorInterceptor_cases st refresh ⟨status, requestInterceptor st req⟩ with
        h | ⟨auth, rts, hauth, hlen, h⟩ | ⟨auth, rt, pair, hauth, hok, h⟩
      · rw [apiCall_fail send refresh st st req status Trace.empty _ hs h]
        exact ⟨rfl, rfl, Or.inl rfl⟩
      · rw [apiCall_fail send refresh st (loggedOutState st auth) req status _ _ hs h]
        refine ⟨rfl, rfl, Or.inr (Or.inr ⟨auth, hauth, ?_, rfl⟩)⟩
        simp [sendTrace, Trace.append]
      · rw [apiCall_retry send refresh st (refreshedState st auth pair) req
          (retriedRequest (⟨status, requestInterceptor st req⟩ : ApiError).config
            pair.accessToken) status ⟨[], [rt], [pair], 0, 0⟩ hs h]
        refine ⟨rfl, rfl, Or.inr (Or.inl ⟨auth, pair, hauth, ?_, rfl⟩)⟩
        simp [sendTrace, Trace.append]

/-- Witness for C8: part (a) applied at a concrete 500-status failure. -/
theorem C8_witness :
    apiCall (fun _ => .fail (some 500)) (fun _ => .error .networkError)
        ⟨none, some ⟨some "u", some "A1", some "R1", true, true⟩, true⟩
        ⟨⟨none, none, []⟩, false⟩ =
      ⟨.error ⟨some 500,
          requestInterceptor ⟨none, some ⟨some "u", some "A1", some "R1", true, true⟩, true⟩
            ⟨⟨none, none, []⟩, false⟩⟩,
        ⟨none, some ⟨some "u", some "A1", some "R1", true, true⟩, true⟩,
        ⟨[requestInterceptor ⟨none, some ⟨some "u", some "A1", some "R1", true, true⟩, true⟩
            ⟨⟨none, none, []⟩, false⟩], [], [], 0, 0⟩⟩ :=
  C8_non401_passthrough_and_writers.1 _ _ _ _ _ (some 500) rfl rfl (by decide)

/-- Claim C9: If the auth-store getter has never been installed, a response
failing with HTTP 401 is propagated to the caller unchanged: the
configuration carried by the propagated error is exactly the decorated
request, whose retry flag equals the original request's (so nothing was
marked as retried), no refresh exchange is issued and neither callback is
invoked. -/
theorem C9_no_getter_passthrough (send : SendFn) (refresh : RefreshFn)
    (st : ClientState) (req sent : Request)
    (hauth : st.authState = none)
    (hsent : sent = requestInterceptor st req)
    (hsend : send sent = .fail (some 401)) :
    apiCall send refresh st req =
      ⟨.error ⟨some 401, sent⟩, st, ⟨[sent], [], [], 0, 0⟩⟩ ∧
    sent.retryFlag = req.retryFlag := by
  subst hsent
  have hstep := responseErrorInterceptor_noauth st refresh
    ⟨some 401, requestInterceptor st req⟩ hauth
  constructor
  · rw [apiCall_fail send refresh st st req (some 401) Trace.empty
      ⟨some 401, requestInterceptor st req⟩ hsend hstep]
    rw [Trace.append_empty]
    rfl
  · exact requestInterceptor_retryFlag st req

/-- Witness for C9 at a concrete state with no installed getter. -/
theorem C9_witness :
    apiCall (fun _ => .fail (some 401)) (fun _ => .error .networkError)
        ⟨none, none, false⟩ ⟨⟨none, none, []⟩, false⟩ =
      ⟨.error ⟨some 401, requestInterceptor ⟨none, none, false⟩ ⟨⟨none, none, []⟩, false⟩⟩,
        ⟨none, none, false⟩,
        ⟨[requestInterceptor ⟨none, none, false⟩ ⟨⟨none, none, []⟩, false⟩],
         [], [], 0, 0⟩⟩ ∧
    (requestInterceptor ⟨none, none, false⟩ ⟨⟨none, none, []⟩, false⟩).retryFlag = false :=
  C9_no_getter_passthrough _ _ ⟨none, none, false⟩ ⟨⟨none, none, []⟩, false⟩ _ rfl rfl rfl

/-- Claim C10: On both terminal-session paths — refresh credential missing,
or refresh exchange failed — with the navigation-reset callback never
installed, the handler still invokes the logout callback exactly once,
skips the navigation reset (zero invocations; the optional chaining makes
this a no-op rather than a crash, and the embedding is a total function),
and still rejects with the original 401 error, without re-issuing
anything. -/
theorem C10_nav_callback_optional (send : SendFn) (refresh : RefreshFn)
    (st : ClientState) (auth : AuthState) (req sent : Request)
    (hauth : st.authState = some auth)
    (hnav : st.navInstalled = false)
    (hflag : req.retryFlag = false)
    (hsent : sent = requestInterceptor st req)
    (hsend : send sent = .fail (some 401))
    (hterm : auth.refreshToken = none ∨
      ∃ rt f, auth.refreshToken = some rt ∧ rt ≠ "" ∧ refresh rt = .error f) :
    (apiCall send refresh st req).result = .error ⟨some 401, markRetried sent⟩ ∧
    (apiCall send refresh st req).finalState = loggedOutState st auth ∧
    (apiCall send refresh st req).trace.logoutCalls = 1 ∧
    (apiCall send refresh st req).trace.navResetCalls = 0 ∧
    (apiCall send refresh st req).trace.sentRequests = [sent] := by
  subst hsent
  have hsentflag : (requestInterceptor st req).retryFlag = false := by
    rw [requestInterceptor_retryFlag]; exact hflag
  rcases hterm with hrt | ⟨rt, f, hrt, hrte, hrf⟩
  · rw [apiCall_fail send refresh st (loggedOutState st auth) req (some 401)
      ⟨[], [], [], 1, if st.navInstalled then 1 else 0⟩
      (markRetriedError ⟨some 401, requestInterceptor st req⟩) hsend
      (responseErrorInterceptor_noToken st auth refresh
        ⟨some 401, requestInterceptor st req⟩ hauth rfl hsentflag hrt)]
    refine ⟨rfl, rfl, rfl, ?_, rfl⟩
    simp [sendTrace, Trace.append, hnav]
  · rw [apiCall_fail send refresh st (loggedOutState st auth) req (some 401)
      ⟨[], [rt], [], 1, if st.navInstalled then 1 else 0⟩
      (markRetriedError ⟨some 401, requestInterceptor st req⟩) hsend
      (responseErrorInterceptor_refreshFail st auth refresh
        ⟨some 401, requestInterceptor st req⟩ rt f hauth rfl hsentflag hrt hrte hrf)]
    refine ⟨rfl, rfl, rfl, ?_, rfl⟩
    simp [sendTrace, Trace.append, hnav]

/-- Witness for C10 at a concrete state with no navigation binding and no
refresh credential. -/
theorem C10_witness :
    (apiCall (fun _ => .fail (some 401)) (fun _ => .error .networkError)
        ⟨none, some ⟨some "u", some "A1", none, true, true⟩, false⟩
        ⟨⟨none, none, []⟩, false⟩).result =
      .error ⟨some 401,
        markRetried (requestInterceptor
          ⟨none, some ⟨some "u", some "A1", none, true, true⟩, false⟩
          ⟨⟨none, none, []⟩, false⟩)⟩ ∧
    (apiCall (fun _ => .fail (some 401)) (fun _ => .error .networkError)
        ⟨none, some ⟨some "u", some "A1", none, true, true⟩, false⟩
        ⟨⟨none, none, []⟩, false⟩).trace.logoutCalls = 1 ∧
    (apiCall (fun _ => .fail (some 401)) (fun _ => .error .networkError)
        ⟨none, some ⟨some "u", some "A1", none, true, true⟩, false⟩
        ⟨⟨none, none, []⟩, false⟩).trace.navResetCalls = 0 := by
  have h := C10_nav_callback_optional (fun _ => .fail (some 401))
    (fun _ => .error .networkError)
    ⟨none, some ⟨some "u", some "A1", none, true, true⟩, false⟩
    ⟨some "u", some "A1", none, true, true⟩ ⟨⟨none, none, []⟩, false⟩ _
    rfl rfl rfl rfl rfl (Or.inl rfl)
  exact ⟨h.1, h.2.2.1, h.2.2.2.1⟩

end ApiClient
